import Mathlib

/-!
Shallow embedding of `src/etl.py`: a two-stage Spark ETL producing a star
schema (Song, Artist, User, Time dimensions and a Songplay fact table).
Dataframes are modelled as Lean lists of records; `dropDuplicates`,
`filter`, column projection and the inner join are modelled as the
corresponding list operations; the Spark session's temp-view registry and
the parquet output sink are explicit state threaded through the two
pipeline functions `process_song_data` and `process_log_data`.
-/

namespace ETL

/-! ### Calendar arithmetic

`etl.py` derives `year`, `month`, `day`, `hour`, `week`, `weekday` columns
from `start_time` via Spark's builtin date functions.  We embed them as
pure functions on epoch time using the standard civil-calendar algorithm.
The timezone is pinned to UTC here (the source leaves it to the engine's
default, an ambiguity the spec flags as an open question; every property
proved below is independent of that choice).
-/

/-- Civil date (year, month, day) of a day count relative to 1970-01-01
(proleptic Gregorian calendar). -/
def civilFromDays (z0 : Int) : Int × Int × Int :=
  let z := z0 + 719468
  let era := z.fdiv 146097
  let doe := z - era * 146097
  let yoe := (doe - doe / 1460 + doe / 36524 - doe / 146096) / 365
  let y := yoe + era * 400
  let doy := doe - (365 * yoe + yoe / 4 - yoe / 100)
  let mp := (5 * doy + 2) / 153
  let d := doy - (153 * mp + 2) / 5 + 1
  let m := mp + (if mp < 10 then 3 else -9)
  (y + (if m ≤ 2 then 1 else 0), m, d)

/-- Day count relative to 1970-01-01 of a civil date. -/
def daysFromCivil (y0 m d : Int) : Int :=
  let y := y0 - (if m ≤ 2 then 1 else 0)
  let era := y.fdiv 400
  let yoe := y - era * 400
  let doy := (153 * (m + (if 2 < m then -3 else 9)) + 2) / 5 + d - 1
  let doe := yoe * 365 + yoe / 4 - yoe / 100 + doy
  era * 146097 + doe - 719468

/-- Day count since epoch of a millisecond epoch timestamp. -/
def daysOfMs (ms : Int) : Int := (ms.fdiv 1000).fdiv 86400

/-- Spark `year('start_time')`. -/
def sparkYear (ms : Int) : Int := (civilFromDays (daysOfMs ms)).1

/-- Spark `month('start_time')` (1–12). -/
def sparkMonth (ms : Int) : Int := (civilFromDays (daysOfMs ms)).2.1

/-- Spark `dayofmonth('start_time')`. -/
def sparkDayofmonth (ms : Int) : Int := (civilFromDays (daysOfMs ms)).2.2

/-- Spark `hour('start_time')`. -/
def sparkHour (ms : Int) : Int := ((ms.fdiv 1000).emod 86400) / 3600

/-- Spark `dayofweek('start_time')`: 1 = Sunday, …, 7 = Saturday. -/
def sparkDayofweek (ms : Int) : Int := (daysOfMs ms + 4).emod 7 + 1

/-- ISO weekday of a day count: 1 = Monday, …, 7 = Sunday. -/
def isoWeekday (days : Int) : Int := (days + 3).emod 7 + 1

/-- Number of ISO weeks (52 or 53) in ISO year `y`. -/
def isoWeeksInYear (y : Int) : Int :=
  let p : Int → Int := fun a => (a + a.fdiv 4 - a.fdiv 100 + a.fdiv 400).emod 7
  if p y = 4 ∨ p (y - 1) = 3 then 53 else 52

/-- Spark `weekofyear('start_time')`: ISO-8601 week of year. -/
def sparkWeekofyear (ms : Int) : Int :=
  let days := daysOfMs ms
  let c := civilFromDays days
  let doy := days - daysFromCivil c.1 1 1 + 1
  let w := (doy - isoWeekday days + 10) / 7
  if w < 1 then isoWeeksInYear (c.1 - 1)
  else if isoWeeksInYear c.1 < w then 1
  else w

/-- The `get_timestamp` UDF: `dt.fromtimestamp(x / 1000)` turns the
millisecond epoch value `ts` into a wall-clock timestamp.  The conversion
is injective (the datetime keeps sub-second precision), so the resulting
timestamp is represented here by its epoch-millisecond value itself; the
`spark*` field extractors above consume this representation. -/
def get_timestamp (ts : Int) : Int := ts

/-! ### Records and rows -/

/-- One raw catalog record, as read by `process_song_data` from the
song-data JSON tree.  Floating-point payload fields (`duration`,
latitude/longitude) carry no arithmetic anywhere in the pipeline — they
are only projected and compared for exact equality by `dropDuplicates` —
so they are represented by `Int` values. -/
structure SongRecord where
  song_id : String
  title : String
  artist_id : String
  year : Int
  duration : Int
  artist_name : String
  artist_location : String
  artist_latitude : Int
  artist_longitude : Int
deriving DecidableEq, Repr

/-- One raw activity-log record, as read by `process_log_data`, with the
snake-case names produced by the `withColumnRenamed` calls (the raw log
data has no `songId` column, so that rename is a no-op). -/
structure LogRecord where
  page : String
  ts : Int
  user_id : String
  session_id : Int
  first_name : String
  last_name : String
  gender : String
  level : String
  user_agent : String
  artist : String
  song : String
  location : String
deriving DecidableEq, Repr

/-- A row of the persisted `songs` table. -/
structure SongRow where
  song_id : String
  title : String
  artist_id : String
  year : Int
  duration : Int
deriving DecidableEq, Repr

/-- A row of the persisted `artists` table (after the renames
`artist_name → name`, `artist_location → location`, …). -/
structure ArtistRow where
  artist_id : String
  name : String
  location : String
  latitude : Int
  longitude : Int
deriving DecidableEq, Repr

/-- A row of the `sng_art_mapping` temp view. -/
structure LookupRow where
  song_id : String
  title : String
  artist_id : String
  artist_name : String
deriving DecidableEq, Repr

/-- A row of the persisted `users` table. -/
structure UserRow where
  user_id : String
  first_name : String
  last_name : String
  gender : String
  level : String
deriving DecidableEq, Repr

/-- A `(start_time, year, month)` tuple, the shape on which the time
table is deduplicated. -/
structure TimeRow where
  start_time : Int
  year : Int
  month : Int
deriving DecidableEq, Repr

/-- A row of the persisted `time` table, after the hour/day/week/weekday
columns are added. -/
structure TimeRowFull where
  start_time : Int
  year : Int
  month : Int
  hour : Int
  day : Int
  week : Int
  weekday : Int
deriving DecidableEq, Repr

/-- A row of the persisted `songplays` table. -/
structure SongplayRow where
  songplay_id : Nat
  start_time : Int
  user_id : String
  level : String
  song_id : String
  artist_id : String
  session_id : Int
  location : String
  user_agent : String
  year : Int
  month : Int
deriving DecidableEq, Repr

/-! ### Spark session and output sink -/

/-- The temp-view registry of the shared Spark session: the only view the
program ever registers is `sng_art_mapping`
(`createOrReplaceTempView` in `process_song_data`). -/
structure SparkSession where
  sng_art_mapping : Option (List LookupRow)
deriving DecidableEq, Repr

/-- The parquet output sink.  Each field holds the last content written to
that output (`write.mode('overwrite')` replaces the whole output), `none`
meaning the output was never written. -/
structure Sink where
  songs : Option (List SongRow)
  artists : Option (List ArtistRow)
  users : Option (List UserRow)
  time : Option (List TimeRowFull)
  songplays : Option (List SongplayRow)
deriving DecidableEq, Repr

/-- Spark's `dropDuplicates()` (no column subset): keep one copy of each
exact row. -/
def dropDuplicates {α : Type} [DecidableEq α] (l : List α) : List α := l.dedup

/-! ### Catalog pipeline (`process_song_data`) -/

/-- The `select(['song_id', 'title', 'artist_id', 'year', 'duration'])`
projection. -/
def songRowOf (r : SongRecord) : SongRow :=
  ⟨r.song_id, r.title, r.artist_id, r.year, r.duration⟩

/-- The `select(['song_id', 'title', 'artist_id', 'artist_name'])`
projection feeding the temp view. -/
def lookupRowOf (r : SongRecord) : LookupRow :=
  ⟨r.song_id, r.title, r.artist_id, r.artist_name⟩

/-- The renames plus
`select(['artist_id', 'name', 'location', 'latitude', 'longitude'])`. -/
def artistRowOf (r : SongRecord) : ArtistRow :=
  ⟨r.artist_id, r.artist_name, r.artist_location, r.artist_latitude, r.artist_longitude⟩

/-- `songs_table`: project then `dropDuplicates()`. -/
def songs_table (df : List SongRecord) : List SongRow :=
  dropDuplicates (df.map songRowOf)

/-- The deduplicated content registered as the `sng_art_mapping` temp
view. -/
def sng_art_mapping_table (df : List SongRecord) : List LookupRow :=
  dropDuplicates (df.map lookupRowOf)

/-- `artists_table`: rename, project, then `dropDuplicates()`. -/
def artists_table (df : List SongRecord) : List ArtistRow :=
  dropDuplicates (df.map artistRowOf)

/-- `process_song_data`: write the songs table, register the
`sng_art_mapping` temp view, write the artists table. -/
def process_song_data (df : List SongRecord) (spark : SparkSession) (sink : Sink) :
    SparkSession × Sink :=
  let sink := { sink with songs := some (songs_table df) }
  let spark := { spark with sng_art_mapping := some (sng_art_mapping_table df) }
  let sink := { sink with artists := some (artists_table df) }
  (spark, sink)

/-! ### Activity pipeline (`process_log_data`) -/

/-- `df.where(df.page == 'NextSong')`. -/
def filterNextSong (df : List LogRecord) : List LogRecord :=
  df.filter (fun r => r.page = "NextSong")

/-- The `select(['user_id', 'first_name', 'last_name', 'gender', 'level'])`
projection. -/
def userRowOf (r : LogRecord) : UserRow :=
  ⟨r.user_id, r.first_name, r.last_name, r.gender, r.level⟩

/-- `users_table`: project the filtered frame then `dropDuplicates()`. -/
def users_table (df : List LogRecord) : List UserRow :=
  dropDuplicates (df.map userRowOf)

/-- A filtered log row enriched with the `start_time`, `year`, `month`
columns added by the three `withColumn` calls. -/
structure Enriched where
  log : LogRecord
  start_time : Int
  year : Int
  month : Int
deriving DecidableEq, Repr

/-- The three `withColumn` calls:
`start_time = get_timestamp(ts)`, `year = year(start_time)`,
`month = month(start_time)`. -/
def enrich (r : LogRecord) : Enriched :=
  let st := get_timestamp r.ts
  ⟨r, st, sparkYear st, sparkMonth st⟩

/-- The `select(['start_time', 'year', 'month'])` projection on which the
time table is deduplicated. -/
def timeRowOf (e : Enriched) : TimeRow := ⟨e.start_time, e.year, e.month⟩

/-- The four `withColumn` calls adding `hour`, `day`, `week`, `weekday`
after the dedup. -/
def augmentTime (t : TimeRow) : TimeRowFull :=
  ⟨t.start_time, t.year, t.month, sparkHour t.start_time, sparkDayofmonth t.start_time,
    sparkWeekofyear t.start_time, sparkDayofweek t.start_time⟩

/-- `time_table`: project, `dropDuplicates()`, then add the four derived
columns. -/
def time_table (dfE : List Enriched) : List TimeRowFull :=
  (dropDuplicates (dfE.map timeRowOf)).map augmentTime

/-- The join condition
`(df.artist == songs_art.artist_name) & (df.song == songs_art.title)`. -/
def joinMatch (e : Enriched) (m : LookupRow) : Bool :=
  e.log.artist = m.artist_name ∧ e.log.song = m.title

/-- The post-join projection: `songplay_id` from
`monotonically_increasing_id()`, `song_id`/`artist_id` from the lookup
side, everything else from the activity side. -/
def mkSongplay (i : Nat) (e : Enriched) (m : LookupRow) : SongplayRow :=
  ⟨i, e.start_time, e.log.user_id, e.log.level, m.song_id, m.artist_id,
    e.log.session_id, e.log.location, e.log.user_agent, e.year, e.month⟩

/-- The inner join of the id-tagged activity rows against the lookup
table, as a nested loop: the row at position `k + j` of `dfE` (id `k + j`,
`monotonically_increasing_id()` modelled as the row index) pairs with
every lookup row satisfying `joinMatch`. -/
def joinFrom (k : Nat) (dfE : List Enriched) (songs_art : List LookupRow) :
    List SongplayRow :=
  match dfE with
  | [] => []
  | e :: es => (songs_art.filter (joinMatch e)).map (mkSongplay k e) ++
      joinFrom (k + 1) es songs_art

/-- `songplays`: tag each enriched activity row with its synthetic id,
inner-join against the lookup table, project. -/
def songplays_table (dfE : List Enriched) (songs_art : List LookupRow) :
    List SongplayRow :=
  joinFrom 0 dfE songs_art

/-- The error message carried when the `sng_art_mapping` view cannot be
resolved. -/
def missingDepError : String :=
  "Table or view not found: sng_art_mapping"

/-- Modelled from the spec: the engine's temp-view resolution behind
`spark.sql('select * from sng_art_mapping')` is not code under `src/`;
per the spec, when the view was never registered "the join step must fail
fast with a clear missing dependency error rather than silently producing
zero rows", so resolution returns the registered content when present and
a missing-dependency error otherwise. -/
def sparkSqlLookup (spark : SparkSession) : Except String (List LookupRow) :=
  match spark.sng_art_mapping with
  | some t => Except.ok t
  | none => Except.error missingDepError

/-- `process_log_data`: filter to NextSong events, write the users table,
enrich with time columns, write the time table, resolve the lookup view,
join, write the songplays table.  Returns the outcome together with the
sink state reached (writes performed before a failure persist). -/
def process_log_data (df0 : List LogRecord) (spark : SparkSession) (sink : Sink) :
    Except String Unit × Sink :=
  let df := filterNextSong df0
  let sink := { sink with users := some (users_table df) }
  let dfE := df.map enrich
  let sink := { sink with time := some (time_table dfE) }
  match sparkSqlLookup spark with
  | Except.error e => (Except.error e, sink)
  | Except.ok songs_art =>
      (Except.ok (), { sink with songplays := some (songplays_table dfE songs_art) })

/-! ### Partition placement

`partitionBy(k₁, k₂)` physically places each row under the directory named
by its values of the key columns; `partitionedBy key rows` records that
placement as a (key, row) pair per row. -/

/-- Placement of each row under its partition key. -/
def partitionedBy {α κ : Type} (key : α → κ) (rows : List α) : List (κ × α) :=
  rows.map (fun r => (key r, r))

/-- `partitionBy('year', 'month')` placement of the songplays output. -/
def songplaysPartitioned (rows : List SongplayRow) : List ((Int × Int) × SongplayRow) :=
  partitionedBy (fun r => (r.year, r.month)) rows

/-- `partitionBy('year', 'artist_id')` placement of the songs output. -/
def songsPartitioned (rows : List SongRow) : List ((Int × String) × SongRow) :=
  partitionedBy (fun r => (r.year, r.artist_id)) rows

/-! ### Concrete fixtures

Small concrete inputs used to instantiate the theorems below (the catalog
record and activity record of the spec's end-to-end scenario, plus
variants exercising duplicate ids and duplicate catalog matches). -/

/-- Catalog record of the spec's scenario. -/
def exSong1 : SongRecord :=
  ⟨"S1", "Test Song", "A1", 2000, 200, "Test Artist", "NYC", 40, -74⟩

/-- A second catalog record with the same `(title, artist_name)` pair as
`exSong1` but a different `song_id`. -/
def exSong2 : SongRecord :=
  ⟨"S2", "Test Song", "A2", 2001, 180, "Test Artist", "LA", 34, -118⟩

/-- A catalog record sharing `exSong1`'s `song_id` with a different
title. -/
def exSongAltTitle : SongRecord :=
  ⟨"S1", "Another Song", "A1", 2000, 210, "Test Artist", "NYC", 40, -74⟩

/-- Activity record of the spec's scenario (a NextSong event matching
`exSong1`). -/
def exLog : LogRecord :=
  ⟨"NextSong", 946684800000, "1", 100, "A", "B", "F", "free", "ua",
    "Test Artist", "Test Song", "loc"⟩

/-- The same event as a paid-level play. -/
def exLogPaid : LogRecord := { exLog with level := "paid", session_id := 101 }

/-- An activity record of a different event type. -/
def exLogHome : LogRecord := { exLog with page := "Home" }

/-- A sink to which nothing has been written yet. -/
def emptySink : Sink := ⟨none, none, none, none, none⟩

/-- A session in which no temp view has been registered. -/
def freshSession : SparkSession := ⟨none⟩

/-! ### Helper lemmas -/

/-- Every row produced by `joinFrom k` carries a synthetic id `≥ k`. -/
theorem joinFrom_id_ge {k : Nat} {dfE : List Enriched} {L : List LookupRow} :
    ∀ r ∈ joinFrom k dfE L, k ≤ r.songplay_id := by
  induction dfE generalizing k with
  | nil => simp [joinFrom]
  | cons e es ih =>
    intro r hr
    simp only [joinFrom, List.mem_append, List.mem_map] at hr
    rcases hr with ⟨m, _, rfl⟩ | hr
    · exact Nat.le_refl k
    · exact Nat.le_of_succ_le (ih r hr)

/-- The fact rows with synthetic id `k + i` are exactly the join block of
the activity row at position `i`. -/
theorem joinFrom_filter_id (L : List LookupRow) :
    ∀ (dfE : List Enriched) (k i : Nat) (h : i < dfE.length),
      (joinFrom k dfE L).filter (fun r => r.songplay_id = k + i) =
        (L.filter (joinMatch (dfE.get ⟨i, h⟩))).map (mkSongplay (k + i) (dfE.get ⟨i, h⟩)) := by
  intro dfE
  induction dfE with
  | nil => intro k i h; exact absurd h (Nat.not_lt_zero i)
  | cons e es ih =>
    intro k i h
    match i with
    | 0 =>
      simp only [joinFrom, List.filter_append, Nat.add_zero, List.get]
      have hblock : ∀ r ∈ (L.filter (joinMatch e)).map (mkSongplay k e),
          r.songplay_id = k := by
        intro r hr
        rcases List.mem_map.mp hr with ⟨m, _, rfl⟩
        rfl
      have h1 : ((L.filter (joinMatch e)).map (mkSongplay k e)).filter
          (fun r => r.songplay_id = k) = (L.filter (joinMatch e)).map (mkSongplay k e) := by
        apply List.filter_eq_self.mpr
        intro r hr
        simp [hblock r hr]
      have h2 : (joinFrom (k + 1) es L).filter (fun r => r.songplay_id = k) = [] := by
        apply List.filter_eq_nil_iff.mpr
        intro r hr
        have := joinFrom_id_ge r hr
        simp only [decide_eq_true_eq]
        omega
      rw [h1, h2, List.append_nil]
    | i + 1 =>
      have h' : i < es.length := Nat.lt_of_succ_lt_succ h
      simp only [joinFrom, List.filter_append, List.get]
      have h1 : ((L.filter (joinMatch e)).map (mkSongplay k e)).filter
          (fun r => r.songplay_id = k + (i + 1)) = [] := by
        apply List.filter_eq_nil_iff.mpr
        intro r hr
        rcases List.mem_map.mp hr with ⟨m, _, rfl⟩
        simp only [mkSongplay, decide_eq_true_eq]
        omega
      have h2 := ih (k + 1) i h'
      have harith : k + (i + 1) = k + 1 + i := by omega
      rw [h1, List.nil_append, harith, h2]

/-- Every fact row comes from some activity row of the joined frame and
some matching lookup row. -/
theorem mem_joinFrom {k : Nat} {dfE : List Enriched} {L : List LookupRow} :
    ∀ r ∈ joinFrom k dfE L,
      ∃ e ∈ dfE, ∃ m ∈ L, joinMatch e m = true ∧ ∃ j, r = mkSongplay j e m := by
  induction dfE generalizing k with
  | nil => simp [joinFrom]
  | cons e es ih =>
    intro r hr
    simp only [joinFrom, List.mem_append, List.mem_map] at hr
    rcases hr with ⟨m, hm, rfl⟩ | hr
    · exact ⟨e, List.mem_cons_self e es, m, (List.mem_filter.mp hm).1,
        (List.mem_filter.mp hm).2, k, rfl⟩
    · rcases ih r hr with ⟨e', he', m, hm, hmatch, j, rfl⟩
      exact ⟨e', List.mem_cons_of_mem e he', m, hm, hmatch, j, rfl⟩

/-- A `Nodup` list whose elements map, under a function injective on the
list, to a given value `b`, has exactly one element mapping to `b` once
one is present. -/
theorem countP_eq_one_of_inj_on {α β : Type} [DecidableEq α] [DecidableEq β]
    (l : List α) (f : α → β)
    (hf : ∀ x ∈ l, ∀ y ∈ l, f x = f y → x = y) (hl : l.Nodup)
    (b : β) (hb : b ∈ l.map f) :
    l.countP (fun x => f x = b) = 1 := by
  rcases List.mem_map.mp hb with ⟨x, hx, rfl⟩
  rw [List.countP_eq_length_filter]
  have hsub : ∀ y ∈ l.filter (fun z => f z = f x), y = x := by
    intro y hy
    have hmem := (List.mem_filter.mp hy).1
    have heq : f y = f x := by
      have := (List.mem_filter.mp hy).2
      simpa using this
    exact hf y hmem x hx heq
  have hxin : x ∈ l.filter (fun z => f z = f x) := by
    apply List.mem_filter.mpr
    exact ⟨hx, by simp⟩
  have hnodup : (l.filter (fun z => f z = f x)).Nodup := hl.filter _
  match hfl : l.filter (fun z => f z = f x) with
  | [] => rw [hfl] at hxin; exact absurd hxin (List.not_mem_nil x)
  | [_] => rfl
  | y :: z :: t =>
    exfalso
    rw [hfl] at hsub hnodup
    have hy : y = x := hsub y (List.mem_cons_self _ _)
    have hz : z = x := hsub z (List.mem_cons_of_mem _ (List.mem_cons_self _ _))
    rw [List.nodup_cons] at hnodup
    exact hnodup.1 (by rw [hy, ← hz]; exact List.mem_cons_self _ _)

/-- Dropping a non-NextSong record from the raw activity input does not
change the filtered frame. -/
theorem filterNextSong_drop (l1 l2 : List LogRecord) (r : LogRecord)
    (h : r.page ≠ "NextSong") :
    filterNextSong (l1 ++ r :: l2) = filterNextSong (l1 ++ l2) := by
  simp [filterNextSong, List.filter_append, List.filter_cons, h]

/-- Synthetic ids of the join output are pairwise distinct when every
activity row matches at most one lookup row. -/
theorem joinFrom_ids_nodup (L : List LookupRow) :
    ∀ (dfE : List Enriched) (k : Nat),
      (∀ e ∈ dfE, (L.filter (joinMatch e)).length ≤ 1) →
      ((joinFrom k dfE L).map (fun r => r.songplay_id)).Nodup := by
  intro dfE
  induction dfE with
  | nil => intro k _; simp [joinFrom]
  | cons e es ih =>
    intro k h
    have htail := ih (k + 1) (fun x hx => h x (List.mem_cons_of_mem _ hx))
    have hblock := h e (List.mem_cons_self _ _)
    simp only [joinFrom, List.map_append]
    rcases hfe : L.filter (joinMatch e) with _ | ⟨m, ms⟩
    · simpa using htail
    · have hms : ms = [] := by
        rw [hfe] at hblock
        simpa using hblock
      subst hms
      simp only [List.map_cons, List.map_nil, List.singleton_append, List.nodup_cons]
      refine ⟨?_, htail⟩
      intro hmem
      rcases List.mem_map.mp hmem with ⟨r, hr, hid⟩
      have := joinFrom_id_ge r hr
      simp only [mkSongplay] at hid
      omega

/-! ### Claim theorems -/

/-- C1: for the filtered activity row at position `i` (whose fact rows are
exactly those carrying synthetic id `i`): if no lookup-table entry matches
its `(artist, song)` pair, no fact row derived from it is written; if the
lookup table contains exactly one matching entry `m`, exactly one fact row
is written for it, carrying `m`'s `song_id` and `artist_id`. -/
theorem c1_join_inner_semantics (dfE : List Enriched) (L : List LookupRow)
    (i : Nat) (h : i < dfE.length) :
    ((∀ m ∈ L, ¬ joinMatch (dfE.get ⟨i, h⟩) m = true) →
      (songplays_table dfE L).filter (fun r => r.songplay_id = i) = [])
    ∧ (∀ m ∈ L, L.filter (joinMatch (dfE.get ⟨i, h⟩)) = [m] →
      (songplays_table dfE L).filter (fun r => r.songplay_id = i) =
          [mkSongplay i (dfE.get ⟨i, h⟩) m]
        ∧ (mkSongplay i (dfE.get ⟨i, h⟩) m).song_id = m.song_id
        ∧ (mkSongplay i (dfE.get ⟨i, h⟩) m).artist_id = m.artist_id) := by
  have key := joinFrom_filter_id L dfE 0 i h
  simp only [Nat.zero_add] at key
  constructor
  · intro hnone
    have hnil : L.filter (joinMatch (dfE.get ⟨i, h⟩)) = [] :=
      List.filter_eq_nil_iff.mpr (fun m hm => by simpa using hnone m hm)
    simp only [songplays_table]
    rw [key, hnil, List.map_nil]
  · intro m _ hone
    refine ⟨?_, rfl, rfl⟩
    simp only [songplays_table]
    rw [key, hone]
    rfl

/-- Witness for C1: on the spec's scenario event, a lookup table whose
only entry has a different title yields no fact row with id 0, while the
matching one-entry lookup table yields exactly the one projected row. -/
theorem c1_join_inner_semantics_witness :
    ((songplays_table [enrich exLog] [lookupRowOf exSongAltTitle]).filter
        (fun r => r.songplay_id = 0) = [])
    ∧ (songplays_table [enrich exLog] [lookupRowOf exSong1]).filter
        (fun r => r.songplay_id = 0) =
        [mkSongplay 0 (enrich exLog) (lookupRowOf exSong1)] :=
  ⟨(c1_join_inner_semantics [enrich exLog] [lookupRowOf exSongAltTitle] 0
      (by decide)).1 (by decide),
    ((c1_join_inner_semantics [enrich exLog] [lookupRowOf exSong1] 0
      (by decide)).2 (lookupRowOf exSong1) (by decide) (by decide)).1⟩

/-- C3: when the `sng_art_mapping` temp view was never registered, the
activity pipeline's join step fails with the distinguishable
missing-dependency error instead of completing, and the songplays output
is not written (in particular no empty fact output is produced). -/
theorem c3_missing_dependency_fails (df : List LogRecord) (spark : SparkSession)
    (sink : Sink) (h : spark.sng_art_mapping = none) :
    (process_log_data df spark sink).1 = Except.error missingDepError
    ∧ ((process_log_data df spark sink).2).songplays = sink.songplays := by
  simp [process_log_data, sparkSqlLookup, h]

/-- Witness for C3: running the activity pipeline on the scenario event
with a fresh session fails with the missing-dependency error and leaves
the songplays output unwritten. -/
theorem c3_missing_dependency_fails_witness :
    (process_log_data [exLog] freshSession emptySink).1 = Except.error missingDepError
    ∧ ((process_log_data [exLog] freshSession emptySink).2).songplays =
        emptySink.songplays :=
  c3_missing_dependency_fails [exLog] freshSession emptySink rfl

/-- C4: an activity record whose `page` is not `"NextSong"` contributes to
no output at all — the whole activity pipeline (Users, Time and Songplays
outputs alike) produces the same result with and without it. -/
theorem c4_non_nextsong_no_output (l1 l2 : List LogRecord) (r : LogRecord)
    (spark : SparkSession) (sink : Sink) (h : r.page ≠ "NextSong") :
    process_log_data (l1 ++ r :: l2) spark sink =
      process_log_data (l1 ++ l2) spark sink := by
  have hf := filterNextSong_drop l1 l2 r h
  simp only [process_log_data, hf]

/-- Witness for C4: inserting a `page = "Home"` record before the
scenario event changes nothing in the activity pipeline's output. -/
theorem c4_non_nextsong_no_output_witness :
    process_log_data ([] ++ exLogHome :: [exLog]) freshSession emptySink =
      process_log_data ([] ++ [exLog]) freshSession emptySink :=
  c4_non_nextsong_no_output [] [exLog] exLogHome freshSession emptySink (by decide)

/-- C9: the `dropDuplicates()` step of each of the Song, Artist, lookup,
User and Time tables is idempotent — applied again to its own output it
returns an identical row set. -/
theorem c9_dedup_idempotent (df : List SongRecord) (df0 : List LogRecord) :
    dropDuplicates (songs_table df) = songs_table df
    ∧ dropDuplicates (artists_table df) = artists_table df
    ∧ dropDuplicates (sng_art_mapping_table df) = sng_art_mapping_table df
    ∧ dropDuplicates (users_table (filterNextSong df0)) =
        users_table (filterNextSong df0)
    ∧ dropDuplicates (dropDuplicates (((filterNextSong df0).map enrich).map timeRowOf)) =
        dropDuplicates (((filterNextSong df0).map enrich).map timeRowOf) := by
  simp [dropDuplicates, songs_table, artists_table, sng_art_mapping_table,
    users_table, List.dedup_idem]

/-- C10: the activity pipeline is not atomic — when the lookup view is
missing, the run fails, but the Users and Time outputs have already been
overwritten with this run's data, while the Songplays output is left
exactly as it was. -/
theorem c10_partial_writes_on_failure (df : List LogRecord) (spark : SparkSession)
    (sink : Sink) (h : spark.sng_art_mapping = none) :
    (process_log_data df spark sink).1 = Except.error missingDepError
    ∧ ((process_log_data df spark sink).2).users =
        some (users_table (filterNextSong df))
    ∧ ((process_log_data df spark sink).2).time =
        some (time_table ((filterNextSong df).map enrich))
    ∧ ((process_log_data df spark sink).2).songplays = sink.songplays := by
  simp [process_log_data, sparkSqlLookup, h]

/-- Counterexample to C2 as stated: the dedup is exact-row only, so when
the same `song_id` appears with differing attribute values (here two
titles), the persisted Song table keeps both rows and `"S1"` occurs in
two rows, not one. -/
theorem c2_counterexample :
    "S1" ∈ (songs_table [exSong1, exSongAltTitle]).map (fun r => r.song_id)
    ∧ (songs_table [exSong1, exSongAltTitle]).countP
        (fun r => r.song_id = "S1") ≠ 1 := by
  decide

/-- C2 (amended): after deduplication every `song_id` occurs in exactly
one row of the persisted Song table, and every `artist_id` in exactly one
row of the persisted Artist table, provided the input catalog collection
gives each id a single combination of projected attribute values. -/
theorem c2_amended_ids_unique (df : List SongRecord)
    (hs : ∀ r1 ∈ df, ∀ r2 ∈ df, r1.song_id = r2.song_id →
      songRowOf r1 = songRowOf r2)
    (ha : ∀ r1 ∈ df, ∀ r2 ∈ df, r1.artist_id = r2.artist_id →
      artistRowOf r1 = artistRowOf r2) :
    (∀ sid ∈ (songs_table df).map (fun r => r.song_id),
      (songs_table df).countP (fun r => r.song_id = sid) = 1)
    ∧ (∀ aid ∈ (artists_table df).map (fun r => r.artist_id),
      (artists_table df).countP (fun r => r.artist_id = aid) = 1) := by
  constructor
  · intro sid hsid
    refine countP_eq_one_of_inj_on (songs_table df) (fun r => r.song_id)
      ?_ ?_ sid hsid
    · intro x hx y hy hxy
      simp only [songs_table, dropDuplicates, List.mem_dedup] at hx hy
      rcases List.mem_map.mp hx with ⟨rx, hrx, rfl⟩
      rcases List.mem_map.mp hy with ⟨ry, hry, rfl⟩
      exact hs rx hrx ry hry hxy
    · simp only [songs_table, dropDuplicates]
      exact List.nodup_dedup _
  · intro aid haid
    refine countP_eq_one_of_inj_on (artists_table df) (fun r => r.artist_id)
      ?_ ?_ aid haid
    · intro x hx y hy hxy
      simp only [artists_table, dropDuplicates, List.mem_dedup] at hx hy
      rcases List.mem_map.mp hx with ⟨rx, hrx, rfl⟩
      rcases List.mem_map.mp hy with ⟨ry, hry, rfl⟩
      exact ha rx hrx ry hry hxy
    · simp only [artists_table, dropDuplicates]
      exact List.nodup_dedup _

/-- Witness for the amended C2: a one-record catalog satisfies the
functional-dependency hypotheses and its ids each occur once. -/
theorem c2_amended_ids_unique_witness :
    (songs_table [exSong1]).countP (fun r => r.song_id = "S1") = 1
    ∧ (artists_table [exSong1]).countP (fun r => r.artist_id = "A1") = 1 :=
  ⟨(c2_amended_ids_unique [exSong1] (by decide) (by decide)).1 "S1" (by decide),
    (c2_amended_ids_unique [exSong1] (by decide) (by decide)).2 "A1" (by decide)⟩

/-- C5: every songplay row is placed under the partition key given by its
own `year`/`month` columns, which equal the calendar year and month
derived from its `start_time`; every song row is placed under the
partition key given by its own `year` and `artist_id` fields. -/
theorem c5_partition_correctness (df0 : List LogRecord) (L : List LookupRow)
    (df : List SongRecord) :
    (∀ p ∈ songplaysPartitioned
        (songplays_table ((filterNextSong df0).map enrich) L),
      sparkYear p.2.start_time = p.1.1 ∧ sparkMonth p.2.start_time = p.1.2)
    ∧ (∀ q ∈ songsPartitioned (songs_table df),
      q.2.year = q.1.1 ∧ q.2.artist_id = q.1.2) := by
  constructor
  · intro p hp
    simp only [songplaysPartitioned, partitionedBy, List.mem_map] at hp
    rcases hp with ⟨r, hr, rfl⟩
    simp only [songplays_table] at hr
    rcases mem_joinFrom r hr with ⟨e, he, m, _, _, j, rfl⟩
    rcases List.mem_map.mp he with ⟨r0, _, rfl⟩
    exact ⟨rfl, rfl⟩
  · intro q hq
    simp only [songsPartitioned, partitionedBy, List.mem_map] at hq
    rcases hq with ⟨r, _, rfl⟩
    exact ⟨rfl, rfl⟩

/-- Witness for C5: the scenario's single fact row sits under partition
key (2000, 1), which is the year/month derived from its start_time. -/
theorem c5_partition_correctness_witness :
    sparkYear (mkSongplay 0 (enrich exLog) (lookupRowOf exSong1)).start_time =
      (mkSongplay 0 (enrich exLog) (lookupRowOf exSong1)).year
    ∧ sparkMonth (mkSongplay 0 (enrich exLog) (lookupRowOf exSong1)).start_time =
      (mkSongplay 0 (enrich exLog) (lookupRowOf exSong1)).month :=
  (c5_partition_correctness [exLog] [lookupRowOf exSong1] [exSong1]).1
    (((mkSongplay 0 (enrich exLog) (lookupRowOf exSong1)).year,
      (mkSongplay 0 (enrich exLog) (lookupRowOf exSong1)).month),
      mkSongplay 0 (enrich exLog) (lookupRowOf exSong1)) (by decide)

/-- C6: the Time table holds exactly one row per distinct `start_time`
observed in the filtered activity events: its `start_time` values are
pairwise distinct (even though the dedup key is the whole
`(start_time, year, month)` tuple) and are exactly the observed ones. -/
theorem c6_time_start_time_unique (df0 : List LogRecord) :
    ((time_table ((filterNextSong df0).map enrich)).map
        (fun t => t.start_time)).Nodup
    ∧ ∀ t : Int,
      (t ∈ (time_table ((filterNextSong df0).map enrich)).map
          (fun t => t.start_time) ↔
        t ∈ (filterNextSong df0).map (fun r => get_timestamp r.ts)) := by
  constructor
  · simp only [time_table, dropDuplicates, List.map_map]
    have hcomp :
        ((fun t : TimeRowFull => t.start_time) ∘ augmentTime) =
          (fun t : TimeRow => t.start_time) := funext (fun _ => rfl)
    rw [hcomp]
    apply List.Nodup.map_on
    · intro x hx y hy hxy
      rw [List.mem_dedup] at hx hy
      rcases List.mem_map.mp hx with ⟨rx, _, rfl⟩
      rcases List.mem_map.mp hy with ⟨ry, _, rfl⟩
      simp only [Function.comp_apply, timeRowOf, enrich, get_timestamp] at hxy ⊢
      rw [hxy]
    · exact List.nodup_dedup _
  · intro t
    simp only [time_table, dropDuplicates, List.map_map, List.mem_map]
    constructor
    · rintro ⟨tr, htr, rfl⟩
      rw [List.mem_dedup] at htr
      rcases List.mem_map.mp htr with ⟨r, hr, rfl⟩
      exact ⟨r, hr, rfl⟩
    · rintro ⟨r, hr, rfl⟩
      refine ⟨(timeRowOf ∘ enrich) r, ?_, rfl⟩
      rw [List.mem_dedup]
      exact List.mem_map_of_mem _ hr

/-- C7: user deduplication is exact-row only — two NextSong events for
the same user that differ in `level` but agree on name and gender both
survive as distinct rows of the persisted Users table. -/
theorem c7_user_level_rows_both_kept (df0 : List LogRecord) (r1 r2 : LogRecord)
    (h1 : r1 ∈ df0) (h2 : r2 ∈ df0)
    (hp1 : r1.page = "NextSong") (hp2 : r2.page = "NextSong")
    (_hu : r1.user_id = r2.user_id) (_hf : r1.first_name = r2.first_name)
    (_hl : r1.last_name = r2.last_name) (_hg : r1.gender = r2.gender)
    (hlev : r1.level ≠ r2.level) :
    userRowOf r1 ∈ users_table (filterNextSong df0)
    ∧ userRowOf r2 ∈ users_table (filterNextSong df0)
    ∧ userRowOf r1 ≠ userRowOf r2 := by
  have hm1 : r1 ∈ filterNextSong df0 :=
    List.mem_filter.mpr ⟨h1, by simp [hp1]⟩
  have hm2 : r2 ∈ filterNextSong df0 :=
    List.mem_filter.mpr ⟨h2, by simp [hp2]⟩
  refine ⟨?_, ?_, ?_⟩
  · simp only [users_table, dropDuplicates, List.mem_dedup]
    exact List.mem_map_of_mem _ hm1
  · simp only [users_table, dropDuplicates, List.mem_dedup]
    exact List.mem_map_of_mem _ hm2
  · intro heq
    exact hlev (congrArg UserRow.level heq)

/-- Witness for C7: the same scenario event played once free and once
paid yields two distinct rows, both present in the Users table. -/
theorem c7_user_level_rows_both_kept_witness :
    userRowOf exLog ∈ users_table (filterNextSong [exLog, exLogPaid])
    ∧ userRowOf exLogPaid ∈ users_table (filterNextSong [exLog, exLogPaid])
    ∧ userRowOf exLog ≠ userRowOf exLogPaid :=
  c7_user_level_rows_both_kept [exLog, exLogPaid] exLog exLogPaid
    (by decide) (by decide) (by decide) (by decide) (by decide) (by decide)
    (by decide) (by decide) (by decide)

/-- Counterexample to C8 as stated: with a catalog holding two entries
that share `(title, artist_name)` but differ in `song_id`, one matching
event yields two fact rows carrying the same `songplay_id`, end to end
through both pipeline stages. -/
theorem c8_counterexample :
    ¬ (((((process_log_data [exLog]
        (process_song_data [exSong1, exSong2] freshSession emptySink).1
        (process_song_data [exSong1, exSong2] freshSession emptySink).2).2).songplays).getD
          []).map (fun r => r.songplay_id)).Nodup := by
  decide

/-- C8 (amended): the synthetic `songplay_id` values of the fact output
are pairwise distinct within one run, provided each filtered event
matches at most one lookup-table entry; an event matching several lookup
entries has its id duplicated across the resulting fact rows. -/
theorem c8_amended_ids_distinct (dfE : List Enriched) (L : List LookupRow)
    (huniq : ∀ e ∈ dfE, (L.filter (joinMatch e)).length ≤ 1) :
    ((songplays_table dfE L).map (fun r => r.songplay_id)).Nodup := by
  simp only [songplays_table]
  exact joinFrom_ids_nodup L dfE 0 huniq

/-- Witness for the amended C8: two events against a one-entry lookup
table get distinct ids. -/
theorem c8_amended_ids_distinct_witness :
    ((songplays_table [enrich exLog, enrich exLogPaid]
        [lookupRowOf exSong1]).map (fun r => r.songplay_id)).Nodup :=
  c8_amended_ids_distinct [enrich exLog, enrich exLogPaid]
    [lookupRowOf exSong1] (by decide)

/-- Witness for C10: on the scenario event with a fresh session and a
sink holding a previous songplays output, the failing run overwrites the
Users and Time outputs but leaves the old songplays content in place. -/
theorem c10_partial_writes_on_failure_witness :
    (process_log_data [exLog] freshSession
        { emptySink with songplays := some [] }).1 = Except.error missingDepError
    ∧ ((process_log_data [exLog] freshSession
        { emptySink with songplays := some [] }).2).users =
        some (users_table (filterNextSong [exLog]))
    ∧ ((process_log_data [exLog] freshSession
        { emptySink with songplays := some [] }).2).time =
        some (time_table ((filterNextSong [exLog]).map enrich))
    ∧ ((process_log_data [exLog] freshSession
        { emptySink with songplays := some [] }).2).songplays =
        ({ emptySink with songplays := some [] } : Sink).songplays :=
  c10_partial_writes_on_failure [exLog] freshSession
    { emptySink with songplays := some [] } rfl

end ETL
